import Mathlib

/-!
# Verification of `convert_genbank_to_gff3.py`

A shallow embedding of `src/sandbox/jorvis/convert_genbank_to_gff3.py` (the
GenBank → GFF3 converter).  The whole program is the function `main`: a loop
over molecule records (`SeqIO.parse`), with an inner loop over the features of
each record, maintaining mutable state (`assemblies`, `current_assembly`,
`current_gene`, `current_RNA`, `gene`, `rna_count_by_gene`,
`exon_count_by_RNA`) and writing GFF3 lines through
`biothings.Gene.print_as`.

Modelling decisions (each is justified against the Python source):

* Python dictionaries keyed by strings (`rna_count_by_gene`,
  `exon_count_by_RNA`, both `defaultdict(int)`) are association lists
  `List (String × Nat)` with lookup-default-0 and insert-or-replace update.
* The mutable `biothings.mRNA` objects are mutated *after* being stored inside
  a gene (`gene.add_mRNA`), and `current_RNA` aliases the stored object, so
  mRNA objects live in an explicit heap (`List MRNAObj`); a gene holds heap
  indices and `current_RNA` holds a heap index.  Gene objects are never
  aliased except by the pair `gene` / `current_gene`, which the script keeps
  in lock-step (`current_gene = gene` at line 78 is the only assignment to
  `current_gene`, immediately after the only assignment to `gene` at line 76;
  neither is ever reset), so a single `current_gene : Option GeneObj` field
  embeds both variables: `current_gene is None` in Python iff the local
  `gene` is unbound, and otherwise both denote the same object.
* `biothings.Assembly(id=mol_id)` carries only its identifier (spec §3), so
  `assemblies` is the list of registered identifiers and `current_assembly`
  the identifier of the record being processed.
* Exceptions raised by the script map to the constructors of `Err`.  The
  script raises two explicit `Exception`s (unstranded feature, line 66;
  duplicate mRNA id, line 91); missing qualifier keys raise `KeyError` and
  `[0]` on an empty qualifier list raises `IndexError`; `gene.add_mRNA(mRNA)`
  with `gene` unbound raises `UnboundLocalError` (line 87, reachable exactly
  when `current_gene is None`); `current_RNA.id` with `current_RNA = None`
  raises `AttributeError` (line 97).  All abort the run; the state reached at
  the abort point (mutations already applied) is returned alongside the error.
* `biothings` / `biocodegff` (the emission code, `print_as`) is code of this
  repository that is not under `src/`; `printGene` is modelled from the spec
  (see its doc comment).
* The `##gff-version 3` header (line 36) is written before the loop and is
  independent of the builder; the embedded output is the list of feature
  lines.  Warnings (`print` at line 111) go to a separate channel, modelled
  as the list of skipped features.

`rna_log` is a ghost observation log, not program state: it records, for each
mRNA record that reaches line 83, the pair (locus tag, synthesized feature
id), so that theorems can speak about which identifier each record received.
No definition branches on it.
-/

deriving instance DecidableEq for Except

/-- A raw qualifier mapping: Python `feat.qualifiers`, a dict from string keys
to lists of string values. -/
abbrev Quals := List (String × List String)

/-- A feature entry of a molecule record (Biopython `SeqFeature`): type tag,
half-open interval (`location.start` / `location.end` as integers), strand
(`+1`, `-1`, `0` or `None`; modelled as `Option Int`), qualifier mapping. -/
structure Feat where
  ftype : String
  fmin : Int
  fmax : Int
  strand : Option Int
  qualifiers : Quals
  deriving DecidableEq, Repr, Inhabited

/-- A molecule record (Biopython `SeqRecord`): `gb_record.name` and
`gb_record.features`. -/
structure GBRec where
  name : String
  features : List Feat
  deriving DecidableEq, Repr, Inhabited

/-- A placement produced by `locate_on`: target assembly (the value of
`current_assembly` at the call), half-open interval, decoded strand. -/
structure Placement where
  assembly : Option String
  fmin : Int
  fmax : Int
  strand : String
  deriving DecidableEq, Repr, Inhabited

/-- A `biothings.CDS` object: id, parent mRNA id, placement, phase (the
script always passes `phase=0`). -/
structure CDSRec where
  id : String
  parent : String
  placement : Placement
  phase : Nat
  deriving DecidableEq, Repr, Inhabited

/-- A `biothings.Exon` object: id, parent mRNA id, placement. -/
structure ExonRec where
  id : String
  parent : String
  placement : Placement
  deriving DecidableEq, Repr, Inhabited

/-- A `biothings.mRNA` object: id, parent gene id (`parent=current_gene`;
`none` when `current_gene is None`), placement, and the CDS / exon children
added by `add_CDS` / `add_exon` in discovery order. -/
structure MRNAObj where
  id : String
  parent : Option String
  placement : Placement
  CDSs : List CDSRec
  exons : List ExonRec
  deriving DecidableEq, Repr, Inhabited

/-- A `biothings.Gene` object: id (the locus tag), placement, and the heap
indices of the mRNAs added by `add_mRNA` in discovery order. -/
structure GeneObj where
  id : String
  placement : Placement
  mRNAs : List Nat
  deriving DecidableEq, Repr, Inhabited

/-- The exceptions the script can raise (see the header comment for the
correspondence to the Python source). -/
inductive Err where
  /-- The explicit `raise Exception("ERROR: unstranded feature …")`, line 66. -/
  | unstranded : Err
  /-- Python `KeyError` from `feat.qualifiers[key]`, key absent. -/
  | keyError : String → Err
  /-- Python `IndexError` from `feat.qualifiers[key][0]`, value list empty. -/
  | indexError : String → Err
  /-- The explicit `raise Exception("ERROR: two different mRNAs found with same ID …")`, line 91. -/
  | duplicateMRNA : String → Err
  /-- Python `UnboundLocalError` at `gene.add_mRNA(mRNA)` (line 87) when no
  gene record has been processed yet. -/
  | unboundLocalGene : Err
  /-- Python `AttributeError` at `current_RNA.id` (line 97) when
  `current_RNA is None`. -/
  | noneTypeRNA : Err
  deriving DecidableEq, Repr

/-- One emitted GFF3 feature line, structured by column (spec §6):
`<molecule_id> <source> <feature_type> <start_1based> <end> . <strand>
<phase_or_.> ID=<id>;Parent=<parent>`.  The score column is the constant `.`
and is omitted. -/
structure Line where
  seqid : Option String
  src : String
  ftype : String
  startPos : Int
  stopPos : Int
  strandCol : String
  phase : Option Nat
  fid : String
  parentId : Option String
  deriving DecidableEq, Repr, Inhabited

/-- The mutable state of `main`'s loop. -/
structure BState where
  /-- Keys of the `assemblies` dict (values are determined:
  `biothings.Assembly(id=mol_id)`). -/
  assemblies : List String
  /-- `current_assembly` (its identifier). -/
  current_assembly : Option String
  /-- The mRNA object heap; `GeneObj.mRNAs` and `current_RNA` are indices. -/
  heap : List MRNAObj
  /-- `current_gene` / `gene` (aliases, see the header comment). -/
  current_gene : Option GeneObj
  /-- `current_RNA`, as a heap index. -/
  current_RNA : Option Nat
  /-- `rna_count_by_gene : defaultdict(int)`, keyed by locus tag. -/
  rna_count_by_gene : List (String × Nat)
  /-- `exon_count_by_RNA : defaultdict(int)`, keyed by mRNA id. -/
  exon_count_by_RNA : List (String × Nat)
  /-- Ghost observation log: (locus tag, synthesized mRNA id) per mRNA record
  reaching line 83. -/
  rna_log : List (String × String)
  deriving DecidableEq, Repr, Inhabited

/-- The result of running a piece of the script: state reached (on an error,
the state at the abort point), GFF3 lines written, features skipped with a
warning, and the exception if one was raised. -/
structure StepRes where
  state : BState
  lines : List Line
  warns : List Feat
  err : Option Err
  deriving DecidableEq, Repr, Inhabited

/-- Dictionary lookup with `defaultdict(int)` semantics: missing key ↦ 0. -/
def lookupD : List (String × Nat) → String → Nat
  | [], _ => 0
  | p :: rest, k => if p.1 == k then p.2 else lookupD rest k

/-- Dictionary membership (`k in d`). -/
def memK : List (String × Nat) → String → Bool
  | [], _ => false
  | p :: rest, k => p.1 == k || memK rest k

/-- Dictionary assignment `d[k] = v`: replace the binding if the key is
present, else append it. -/
def setK : List (String × Nat) → String → Nat → List (String × Nat)
  | [], k, v => [(k, v)]
  | p :: rest, k, v => if p.1 == k then (k, v) :: rest else p :: setK rest k v

/-- `feat.qualifiers[key]`: `none` models Python's `KeyError`. -/
def qlookup : Quals → String → Option (List String)
  | [], _ => none
  | p :: rest, k => if p.1 == k then some p.2 else qlookup rest k

/-- `feat.qualifiers[key][0]`: `KeyError` when the key is absent,
`IndexError` when the value list is empty. -/
def qual0 (q : Quals) (k : String) : Except Err String :=
  match qlookup q k with
  | none => .error (.keyError k)
  | some [] => .error (.indexError k)
  | some (v :: _) => .ok v

/-- Lines 61–66: decode `feat.location.strand` (`== 1` ↦ `+`, `== -1` ↦ `-`,
anything else raises the unstranded-feature exception). -/
def decodeStrand (s : Option Int) : Except Err String :=
  if s = some 1 then .ok "+"
  else if s = some (-1) then .ok "-"
  else .error .unstranded

/-- Modelled from the spec: `biothings.Gene.print_as(fh, source='GenBank',
format='gff3')` lives in the `biothings` / `biocodegff` modules of this
repository, which are not under `src/`.  Per spec §4.3 and §6 it serializes
the gene subgraph in the order: gene line (no `Parent=`), then for each
transcript in discovery order the transcript line followed by its
coding-segment / exon lines interleaved in discovery order (each CDS paired
with its exon, per the §8 E2E scenario); coordinates become 1-based inclusive
(`start = fmin + 1`, `end = fmax`); the phase column is the stored phase for
coding segments and `.` otherwise; `source` is the fixed literal `GenBank`.
The heap argument resolves the gene's mRNA references at print time. -/
def printGene (heap : List MRNAObj) (g : GeneObj) : List Line :=
  ⟨g.placement.assembly, "GenBank", "gene", g.placement.fmin + 1, g.placement.fmax,
    g.placement.strand, none, g.id, none⟩ ::
  g.mRNAs.flatMap (fun i =>
    match heap[i]? with
    | none => []
    | some m =>
      ⟨m.placement.assembly, "GenBank", "mRNA", m.placement.fmin + 1, m.placement.fmax,
        m.placement.strand, none, m.id, m.parent⟩ ::
      (m.CDSs.zip m.exons).flatMap (fun ce =>
        [⟨ce.1.placement.assembly, "GenBank", "CDS", ce.1.placement.fmin + 1,
           ce.1.placement.fmax, ce.1.placement.strand, some ce.1.phase, ce.1.id,
           some ce.1.parent⟩,
         ⟨ce.2.placement.assembly, "GenBank", "exon", ce.2.placement.fmin + 1,
           ce.2.placement.fmax, ce.2.placement.strand, none, ce.2.id,
           some ce.2.parent⟩]))

/-- Lines 72–73 and 114–115: `if current_gene is not None:
gene.print_as(…)`. -/
def flushLines (s : BState) : List Line :=
  match s.current_gene with
  | none => []
  | some g => printGene s.heap g

/-- Lines 56–111: process one feature entry.  Coordinates are extracted
(lines 58–59), the strand is decoded (61–66), then the feature type is
dispatched (70, 80, 95, 110). -/
def processFeature (s : BState) (f : Feat) : StepRes :=
  match decodeStrand f.strand with
  | .error e => ⟨s, [], [], some e⟩
  | .ok strand =>
    if f.ftype = "gene" then
      -- lines 70–78; the flush (72–73) happens before the locus tag is read (75)
      let flushed := flushLines s
      match qual0 f.qualifiers "locus_tag" with
      | .error e => ⟨s, flushed, [], some e⟩
      | .ok locus_tag =>
        let g : GeneObj :=
          ⟨locus_tag, ⟨s.current_assembly, f.fmin, f.fmax, strand⟩, []⟩
        ⟨{ s with current_gene := some g }, flushed, [], none⟩
    else if f.ftype = "mRNA" then
      -- lines 80–93
      match qual0 f.qualifiers "locus_tag" with
      | .error e => ⟨s, [], [], some e⟩
      | .ok locus_tag =>
        let newCount := lookupD s.rna_count_by_gene locus_tag + 1
        let feat_id := locus_tag ++ ".mRNA." ++ toString newCount
        let mObj : MRNAObj :=
          ⟨feat_id, s.current_gene.map GeneObj.id,
            ⟨s.current_assembly, f.fmin, f.fmax, strand⟩, [], []⟩
        let idx := s.heap.length
        let s1 := { s with
          rna_count_by_gene := setK s.rna_count_by_gene locus_tag newCount,
          rna_log := s.rna_log ++ [(locus_tag, feat_id)],
          heap := s.heap ++ [mObj] }
        match s1.current_gene with
        | none => ⟨s1, [], [], some .unboundLocalGene⟩   -- line 87, gene unbound
        | some g =>
          let s2 := { s1 with
            current_gene := some { g with mRNAs := g.mRNAs ++ [idx] },
            current_RNA := some idx }
          if memK s2.exon_count_by_RNA feat_id then
            ⟨s2, [], [], some (.duplicateMRNA feat_id)⟩  -- line 91
          else
            ⟨{ s2 with exon_count_by_RNA := setK s2.exon_count_by_RNA feat_id 0 },
              [], [], none⟩
    else if f.ftype = "CDS" then
      -- lines 95–108; the locus tag is read first (96) though unused
      match qual0 f.qualifiers "locus_tag" with
      | .error e => ⟨s, [], [], some e⟩
      | .ok _ =>
        match s.current_RNA with
        | none => ⟨s, [], [], some .noneTypeRNA⟩         -- line 97, current_RNA is None
        | some i =>
          let m := s.heap.getD i default   -- always in range, see `ReachInv`
          let newCount := lookupD s.exon_count_by_RNA m.id + 1
          let cds_id := m.id ++ ".CDS." ++ toString newCount
          let cds : CDSRec :=
            ⟨cds_id, m.id, ⟨s.current_assembly, f.fmin, f.fmax, strand⟩, 0⟩
          let exon_id := m.id ++ ".exon." ++ toString newCount
          let exon : ExonRec :=
            ⟨exon_id, m.id, ⟨s.current_assembly, f.fmin, f.fmax, strand⟩⟩
          let s1 := { s with
            exon_count_by_RNA := setK s.exon_count_by_RNA m.id newCount,
            heap := s.heap.set i { m with CDSs := m.CDSs ++ [cds],
                                          exons := m.exons ++ [exon] } }
          -- line 108: `product = feat.qualifiers['product'][0]`
          match qual0 f.qualifiers "product" with
          | .error e => ⟨s1, [], [], some e⟩
          | .ok _ => ⟨s1, [], [], none⟩
    else
      -- lines 110–111
      ⟨s, [], [f], none⟩

/-- The inner loop over `gb_record.features`, stopping at the first
exception. -/
def processFeatures (s : BState) : List Feat → StepRes
  | [] => ⟨s, [], [], none⟩
  | f :: fs =>
    let r := processFeature s f
    match r.err with
    | some _ => r
    | none =>
      let r2 := processFeatures r.state fs
      ⟨r2.state, r.lines ++ r2.lines, r.warns ++ r2.warns, r2.err⟩

/-- Lines 48–115: process one molecule record — register its assembly
(50–53), run the feature loop, then flush the open gene (113–115; note these
lines are inside the record loop, so this flush runs at the end of *every*
molecule record, and `current_gene` is not cleared by it). -/
def processMolecule (s : BState) (r : GBRec) : StepRes :=
  let s1 := { s with
    assemblies := if s.assemblies.contains r.name then s.assemblies
                  else s.assemblies ++ [r.name],
    current_assembly := some r.name }
  let res := processFeatures s1 r.features
  match res.err with
  | some _ => res
  | none => { res with lines := res.lines ++ flushLines res.state }

/-- The outer loop over `SeqIO.parse(…)`, from an arbitrary state. -/
def runFrom (s : BState) : List GBRec → StepRes
  | [] => ⟨s, [], [], none⟩
  | r :: rs =>
    let res := processMolecule s r
    match res.err with
    | some _ => res
    | none =>
      let res2 := runFrom res.state rs
      ⟨res2.state, res.lines ++ res2.lines, res.warns ++ res2.warns, res2.err⟩

/-- The initial state (lines 38–44). -/
def initState : BState := ⟨[], none, [], none, none, [], [], []⟩

/-- The whole program on a parsed input. -/
def run (recs : List GBRec) : StepRes := runFrom initState recs

/-! ## Dictionary helper lemmas -/

theorem lookupD_setK_self (l : List (String × Nat)) (k : String) (v : Nat) :
    lookupD (setK l k v) k = v := by
  induction l with
  | nil => simp [setK, lookupD]
  | cons p rest ih =>
    by_cases h : p.1 = k
    · simp [setK, lookupD, h]
    · simp [setK, lookupD, h, ih]

theorem lookupD_setK_ne (l : List (String × Nat)) (k k' : String) (v : Nat)
    (h : k' ≠ k) : lookupD (setK l k v) k' = lookupD l k' := by
  have hkk : (k == k') = false := beq_eq_false_iff_ne.mpr (Ne.symm h)
  induction l with
  | nil => simp [setK, lookupD, hkk]
  | cons p rest ih =>
    by_cases hp : p.1 = k
    · subst hp
      simp [setK, lookupD, hkk]
    · simp [setK, lookupD, hp, ih]

theorem memK_setK (l : List (String × Nat)) (k k' : String) (v : Nat) :
    memK (setK l k v) k' = (k == k' || memK l k') := by
  induction l with
  | nil => simp [setK, memK]
  | cons p rest ih =>
    by_cases hp : p.1 = k
    · subst hp
      simp only [setK, beq_self_eq_true, if_true, memK]
      cases hb : (p.1 == k') <;> simp [hb]
    · simp [setK, memK, hp, ih, Bool.or_left_comm]

/-! ## Shared concrete inputs

Typical well-formed feature records, used by witnesses and counterexamples. -/

/-- A gene record with the given locus tag on `[0, 1000)`, forward strand. -/
def geneFeat (locus : String) : Feat :=
  ⟨"gene", 0, 1000, some 1, [("locus_tag", [locus])]⟩

/-- An mRNA record with the given locus tag on `[0, 1000)`, forward strand. -/
def mrnaFeat (locus : String) : Feat :=
  ⟨"mRNA", 0, 1000, some 1, [("locus_tag", [locus])]⟩

/-- A CDS record with the given locus tag and interval, forward strand, with
a `product` qualifier. -/
def cdsFeat (locus : String) (a b : Int) : Feat :=
  ⟨"CDS", a, b, some 1, [("locus_tag", [locus]), ("product", ["hypothetical protein"])]⟩

/-- The spec §8 E2E scenario: one molecule, one gene, one mRNA, two CDS. -/
def e2eInput : List GBRec :=
  [⟨"chr1", [geneFeat "g1", mrnaFeat "g1", cdsFeat "g1" 0 500, cdsFeat "g1" 600 1000]⟩]

/-! ## C1 -/

/-- C1 (code bug): the claim says each Gene is emitted exactly once over the
whole run.  The flush at lines 113–115 is *inside* the record loop (it runs at
the end of every molecule record) and `current_gene` is never cleared, so on a
multi-record input — which the script's docstring says it handles — the last
gene of a molecule is emitted again when a later molecule flushes.  On the
input `[chrA: [gene g1], chrB: [gene g2]]` the run succeeds and emits the
`g1` gene line twice (once at the end of `chrA`, once when `chrB`'s gene
record flushes the still-open `g1`). -/
theorem c1_gene_emitted_twice :
    ((run [⟨"chrA", [geneFeat "g1"]⟩, ⟨"chrB", [geneFeat "g2"]⟩]).lines.map Line.fid
        = ["g1", "g1", "g2"])
    ∧ (run [⟨"chrA", [geneFeat "g1"]⟩, ⟨"chrB", [geneFeat "g2"]⟩]).err = none := by
  decide

/-! ## C2 -/

/-- C2 counterexample: the claim says flushing happens only on a subsequent
gene-typed record or at the end of all input.  On
`[chrA: [gene g1], chrB: []]` there is no gene record after `g1`, so under
the claim `g1` would be flushed exactly once (at end of input); the run in
fact emits `g1`'s line twice, because the lines 113–115 flush runs at the end
of each molecule record and does not clear `current_gene`. -/
theorem c2_counterexample :
    (run [⟨"chrA", [geneFeat "g1"]⟩, ⟨"chrB", ([] : List Feat)⟩]).lines.map Line.fid
      = ["g1", "g1"] := by
  decide

/-! ## C3 -/

/-- C3 counterexample: the claim says a gene-typed record clears any open
Transcript context.  After `[gene g1, mRNA g1, gene g2]` the last record
processed is gene-typed, yet `current_RNA` still points at `g1`'s transcript
(heap index 0): the gene branch (lines 70–78) never resets `current_RNA`. -/
theorem c3_counterexample :
    ((run [⟨"chr1", [geneFeat "g1", mrnaFeat "g1", geneFeat "g2"]⟩]).state.current_RNA
        = some 0)
    ∧ (run [⟨"chr1", [geneFeat "g1", mrnaFeat "g1", geneFeat "g2"]⟩]).err = none := by
  decide

/-! ## C4 -/

/-- C4 counterexample: the claim says an mRNA-typed record processed with no
open Gene context fails with a dedicated ordering error.  The script has no
such dedicated error: on `[mRNA with no locus_tag]` (processed with no gene
open) the run aborts with the `KeyError` for the missing `locus_tag`
qualifier (line 81), which is a missing-qualifier failure, not an ordering
one; and even with a locus tag present the ordering failure is the generic
`UnboundLocalError` / `AttributeError` (see `c4_missing_context_aborts`). -/
theorem c4_counterexample :
    ((run [⟨"chr", [⟨"mRNA", 0, 5, some 1, []⟩]⟩]).err = some (Err.keyError "locus_tag"))
    ∧ Err.keyError "locus_tag" ≠ Err.unboundLocalGene
    ∧ Err.keyError "locus_tag" ≠ Err.noneTypeRNA := by
  decide

/-! ## C9 -/

/-- C9 counterexample: the claim says a record of unrecognized type emits a
non-fatal warning and leaves the state unchanged.  The strand check at lines
61–66 runs *before* the type dispatch, so an unrecognized-type record whose
strand is undecodable aborts the run with the unstranded-feature exception
and emits no warning at all. -/
theorem c9_counterexample :
    ((run [⟨"chr", [⟨"misc_feature", 0, 5, none, []⟩]⟩]).err = some Err.unstranded)
    ∧ (run [⟨"chr", [⟨"misc_feature", 0, 5, none, []⟩]⟩]).warns = [] := by
  decide

/-! ## C10 -/

/-- C10 counterexample: the claim says every CDS-typed record processed with
an open Transcript context and no `product` qualifier aborts with the
CodingSegment and Exon already attached.  The CDS branch reads `locus_tag`
first (line 96): on a CDS record with no qualifiers at all, processed with
the transcript `g1.mRNA.1` open, the run aborts on the `locus_tag` KeyError
*before* creating or attaching anything — the open transcript still has zero
CDS and zero exon children at the abort. -/
theorem c10_counterexample :
    ((run [⟨"chr", [geneFeat "g1", mrnaFeat "g1", ⟨"CDS", 0, 5, some 1, []⟩]⟩]).err
        = some (Err.keyError "locus_tag"))
    ∧ (run [⟨"chr", [geneFeat "g1", mrnaFeat "g1", ⟨"CDS", 0, 5, some 1, []⟩]⟩]).state.current_RNA
        = some 0
    ∧ ((run [⟨"chr", [geneFeat "g1", mrnaFeat "g1", ⟨"CDS", 0, 5, some 1, []⟩]⟩]).state.heap.map
        (fun m => (m.CDSs.length, m.exons.length))) = [(0, 0)] := by
  decide

/-! ## C5 -/

/-- C5 (confirmed): strand decoding (lines 61–66).  A strand of `+1`
("forward") maps to `+`, `-1` ("reverse") maps to `-`, and any other strand
value makes the feature raise the unstranded-feature exception, which aborts
the run with no output line for that feature, for any later feature of the
molecule, or for any later molecule: from any state, a molecule whose feature
list reaches such a feature first produces no lines at all, regardless of the
rest of the input. -/
theorem c5_strand_decoding :
    (∀ v : Option Int,
      (v = some 1 → decodeStrand v = .ok "+")
      ∧ (v = some (-1) → decodeStrand v = .ok "-")
      ∧ (v ≠ some 1 → v ≠ some (-1) → decodeStrand v = .error .unstranded))
    ∧ (∀ (s : BState) (m : String) (f : Feat) (fs : List Feat) (recs : List GBRec),
        f.strand ≠ some 1 → f.strand ≠ some (-1) →
        runFrom s (⟨m, f :: fs⟩ :: recs) =
          ⟨{ s with
              assemblies := if s.assemblies.contains m then s.assemblies
                            else s.assemblies ++ [m],
              current_assembly := some m },
            [], [], some .unstranded⟩) := by
  constructor
  · intro v
    refine ⟨fun h => ?_, fun h => ?_, fun h1 h2 => ?_⟩
    · simp [decodeStrand, h]
    · simp [decodeStrand, h]
    · simp [decodeStrand, h1, h2]
  · intro s m f fs recs h1 h2
    simp [runFrom, processMolecule, processFeatures, processFeature, decodeStrand, h1, h2]

/-- Witness for `c5_strand_decoding` at strand value `some 5` and an
unstranded gene feature heading a two-molecule input. -/
theorem c5_strand_decoding_witness :
    (decodeStrand (some 5) = .error .unstranded)
    ∧ runFrom initState [⟨"chr", [⟨"gene", 0, 9, some 5, []⟩, geneFeat "gX"]⟩, ⟨"chr2", []⟩] =
        ⟨⟨["chr"], some "chr", [], none, none, [], [], []⟩, [], [], some .unstranded⟩ :=
  ⟨(c5_strand_decoding.1 (some 5)).2.2 (by decide) (by decide),
   c5_strand_decoding.2 initState "chr" ⟨"gene", 0, 9, some 5, []⟩ [geneFeat "gX"]
     [⟨"chr2", []⟩] (by decide) (by decide)⟩

/-- C3 (amended): processing a gene-typed record (whose strand decodes and
whose `locus_tag` qualifier is present) flushes any previously open Gene,
creates a new Gene placed on the record's Assembly with the record's interval
and strand, and opens it as the current gene context — but it does **not**
clear the open Transcript context: the resulting state differs from the
input state only in `current_gene` (in particular `current_RNA`, the
counters, the heap and the emitted entities are untouched). -/
theorem c3_gene_record_transition (s : BState) (f : Feat) (str L : String)
    (hty : f.ftype = "gene") (hstr : decodeStrand f.strand = .ok str)
    (hq : qual0 f.qualifiers "locus_tag" = .ok L) :
    processFeature s f =
      ⟨{ s with current_gene := some ⟨L, ⟨s.current_assembly, f.fmin, f.fmax, str⟩, []⟩ },
        flushLines s, [], none⟩ := by
  simp [processFeature, hstr, hty, hq]

/-- Witness for `c3_gene_record_transition`: a state with an open transcript
context (`current_RNA = some 3`) processing a concrete gene record. -/
theorem c3_gene_record_transition_witness :
    (decodeStrand (geneFeat "gX").strand = .ok "+")
    ∧ processFeature { initState with current_assembly := some "chr", current_RNA := some 3 }
        (geneFeat "gX") =
      ⟨{ { initState with current_assembly := some "chr", current_RNA := some 3 } with
          current_gene := some ⟨"gX",
            ⟨{ initState with current_assembly := some "chr", current_RNA := some 3 }.current_assembly,
              (geneFeat "gX").fmin, (geneFeat "gX").fmax, "+"⟩, []⟩ },
        flushLines { initState with current_assembly := some "chr", current_RNA := some 3 },
        [], none⟩ :=
  ⟨by decide,
   c3_gene_record_transition _ (geneFeat "gX") "+" "gX" rfl (by decide) (by decide)⟩

/-- C4 (amended): an mRNA-typed record (with decodable strand and a
`locus_tag` qualifier) processed while no Gene context is open, or a
CDS-typed record (likewise) processed while no Transcript context is open,
makes the feature loop abort fatally — the remaining features are not
processed.  The failure is not a dedicated ordering error: it is the generic
`UnboundLocalError` on the unbound `gene` local (line 87), respectively the
`AttributeError` on `current_RNA.id` (line 97). -/
theorem c4_missing_context_aborts :
    (∀ (s : BState) (f : Feat) (fs : List Feat) (str L : String),
      f.ftype = "mRNA" → decodeStrand f.strand = .ok str →
      qual0 f.qualifiers "locus_tag" = .ok L → s.current_gene = none →
      (processFeatures s (f :: fs)).err = some Err.unboundLocalGene)
    ∧ (∀ (s : BState) (f : Feat) (fs : List Feat) (str L : String),
      f.ftype = "CDS" → decodeStrand f.strand = .ok str →
      qual0 f.qualifiers "locus_tag" = .ok L → s.current_RNA = none →
      (processFeatures s (f :: fs)).err = some Err.noneTypeRNA) := by
  constructor
  · intro s f fs str L hty hstr hq hg
    simp [processFeatures, processFeature, hty, hstr, hq, hg]
  · intro s f fs str L hty hstr hq hr
    simp [processFeatures, processFeature, hty, hstr, hq, hr]

/-- Witness for `c4_missing_context_aborts`: from the initial state (no gene,
no transcript open), an mRNA record and a CDS record each abort the loop. -/
theorem c4_missing_context_aborts_witness :
    ((processFeatures initState [mrnaFeat "gA"]).err = some Err.unboundLocalGene)
    ∧ ((processFeatures initState [cdsFeat "gA" 0 5]).err = some Err.noneTypeRNA) :=
  ⟨c4_missing_context_aborts.1 initState (mrnaFeat "gA") [] "+" "gA" rfl (by decide)
      (by decide) rfl,
   c4_missing_context_aborts.2 initState (cdsFeat "gA" 0 5) [] "+" "gA" rfl (by decide)
      (by decide) rfl⟩

/-- C9 (amended): a feature record of unrecognized type **whose strand
decodes** (forward or reverse) is skipped with a non-fatal warning naming the
record, and the builder state is left completely unchanged (open Gene and
Transcript contexts, counters and attached entities included); propagation
continues.  (Without the strand condition the claim fails: see
`c9_counterexample`.) -/
theorem c9_unrecognized_type_skipped (s : BState) (f : Feat) (str : String)
    (h1 : f.ftype ≠ "gene") (h2 : f.ftype ≠ "mRNA") (h3 : f.ftype ≠ "CDS")
    (hstr : decodeStrand f.strand = .ok str) :
    processFeature s f = ⟨s, [], [f], none⟩ := by
  simp [processFeature, hstr, h1, h2, h3]

/-- Witness for `c9_unrecognized_type_skipped`: a reverse-strand `tRNA`
feature processed from the initial state. -/
theorem c9_unrecognized_type_skipped_witness :
    processFeature initState ⟨"tRNA", 3, 9, some (-1), []⟩ =
      ⟨initState, [], [⟨"tRNA", 3, 9, some (-1), []⟩], none⟩ :=
  c9_unrecognized_type_skipped initState ⟨"tRNA", 3, 9, some (-1), []⟩ "-"
    (by decide) (by decide) (by decide) (by decide)

/-- C10 (amended): a CDS-typed record with decodable strand and a `locus_tag`
qualifier, processed while a Transcript context is open, whose qualifier
mapping has no `product` key, aborts the run with the uncaught `KeyError`
from line 108 — and the abort is not atomic: the CodingSegment and the Exon
created from the record (sharing the freshly incremented per-transcript
index) were already attached to the current Transcript when the exception
was raised.  (The strand / locus-tag conditions are needed: without them the
run aborts *before* attaching anything, see `c10_counterexample`.) -/
theorem c10_missing_product_aborts_nonatomic (s : BState) (f : Feat) (i : Nat)
    (m : MRNAObj) (str L : String)
    (hty : f.ftype = "CDS") (hstr : decodeStrand f.strand = .ok str)
    (hq : qual0 f.qualifiers "locus_tag" = .ok L)
    (hr : s.current_RNA = some i) (hm : s.heap[i]? = some m)
    (hp : qlookup f.qualifiers "product" = none) :
    (processFeature s f).err = some (Err.keyError "product")
    ∧ (processFeature s f).state.heap[i]? = some
        { m with
          CDSs := m.CDSs ++
            [⟨m.id ++ ".CDS." ++ toString (lookupD s.exon_count_by_RNA m.id + 1),
              m.id, ⟨s.current_assembly, f.fmin, f.fmax, str⟩, 0⟩],
          exons := m.exons ++
            [⟨m.id ++ ".exon." ++ toString (lookupD s.exon_count_by_RNA m.id + 1),
              m.id, ⟨s.current_assembly, f.fmin, f.fmax, str⟩⟩] } := by
  have hlen : i < s.heap.length := by
    obtain ⟨h, -⟩ := List.getElem?_eq_some_iff.mp hm
    exact h
  have hgetD : s.heap.getD i default = m := by
    simp [List.getD_eq_getElem?_getD, hm]
  have hqp : qual0 f.qualifiers "product" = .error (.keyError "product") := by
    simp [qual0, hp]
  constructor
  · simp [processFeature, hty, hstr, hq, hr, hgetD, hqp]
  · simp [processFeature, hty, hstr, hq, hr, hgetD, hqp, hm, List.getElem?_set_self hlen]

/-- The open transcript used by the C10 witness. -/
def c10RNA : MRNAObj := ⟨"g1.mRNA.1", some "g1", ⟨some "chr", 0, 1000, "+"⟩, [], []⟩

/-- A reachable state with transcript `g1.mRNA.1` open, used by the C10
witness (the state `run [⟨chr, [gene g1, mRNA g1]⟩]` reaches before a CDS). -/
def c10State : BState :=
  ⟨["chr"], some "chr", [c10RNA], some ⟨"g1", ⟨some "chr", 0, 1000, "+"⟩, [0]⟩,
    some 0, [("g1", 1)], [("g1.mRNA.1", 0)], [("g1", "g1.mRNA.1")]⟩

/-- Witness for `c10_missing_product_aborts_nonatomic`: a CDS record carrying
only a locus tag, processed in `c10State`. -/
theorem c10_missing_product_aborts_nonatomic_witness :
    (processFeature c10State ⟨"CDS", 2, 7, some 1, [("locus_tag", ["g1"])]⟩).err
        = some (Err.keyError "product")
    ∧ (processFeature c10State ⟨"CDS", 2, 7, some 1, [("locus_tag", ["g1"])]⟩).state.heap[0]?
        = some
        { c10RNA with
          CDSs := c10RNA.CDSs ++
            [⟨c10RNA.id ++ ".CDS." ++ toString (lookupD c10State.exon_count_by_RNA c10RNA.id + 1),
              c10RNA.id, ⟨c10State.current_assembly, (2 : Int), (7 : Int), "+"⟩, 0⟩],
          exons := c10RNA.exons ++
            [⟨c10RNA.id ++ ".exon." ++ toString (lookupD c10State.exon_count_by_RNA c10RNA.id + 1),
              c10RNA.id, ⟨c10State.current_assembly, (2 : Int), (7 : Int), "+"⟩⟩] } :=
  c10_missing_product_aborts_nonatomic c10State ⟨"CDS", 2, 7, some 1, [("locus_tag", ["g1"])]⟩
    0 c10RNA "+" "g1" rfl (by decide) (by decide) rfl (by decide) (by decide)

/-- C8 (confirmed): lines 90–93.  When an mRNA-typed record (with decodable
strand and a locus tag, processed with a Gene context open — all implied by
an identifier being synthesized at all) synthesizes a transcript identifier
that is already registered (a key of `exon_count_by_RNA`, i.e. used by a
prior transcript of the run), the run fails with the dedicated
duplicate-identifier exception naming that identifier; otherwise the
identifier is registered (its per-transcript counter is initialized to 0)
and processing continues without error. -/
theorem c8_duplicate_mrna_id (s : BState) (f : Feat) (g : GeneObj) (str L : String)
    (hty : f.ftype = "mRNA") (hstr : decodeStrand f.strand = .ok str)
    (hq : qual0 f.qualifiers "locus_tag" = .ok L)
    (hg : s.current_gene = some g) :
    (memK s.exon_count_by_RNA (L ++ ".mRNA." ++ toString (lookupD s.rna_count_by_gene L + 1))
        = true →
      (processFeature s f).err = some (Err.duplicateMRNA
        (L ++ ".mRNA." ++ toString (lookupD s.rna_count_by_gene L + 1))))
    ∧ (memK s.exon_count_by_RNA (L ++ ".mRNA." ++ toString (lookupD s.rna_count_by_gene L + 1))
        = false →
      (processFeature s f).err = none
      ∧ memK (processFeature s f).state.exon_count_by_RNA
          (L ++ ".mRNA." ++ toString (lookupD s.rna_count_by_gene L + 1)) = true
      ∧ lookupD (processFeature s f).state.exon_count_by_RNA
          (L ++ ".mRNA." ++ toString (lookupD s.rna_count_by_gene L + 1)) = 0) := by
  constructor
  · intro hmem
    simp [processFeature, hty, hstr, hq, hg, hmem]
  · intro hmem
    refine ⟨?_, ?_, ?_⟩ <;>
      simp [processFeature, hty, hstr, hq, hg, hmem, memK_setK, lookupD_setK_self]

/-- A state with an open gene and the transcript id `g1.mRNA.1` already
registered, used by the C8 witness for the duplicate branch. -/
def c8dupState : BState :=
  ⟨["chr"], some "chr", [], some ⟨"g1", ⟨some "chr", 0, 1000, "+"⟩, []⟩, none,
    [], [("g1.mRNA.1", 0)], []⟩

/-- A state with an open gene and no registered transcript id, used by the C8
witness for the no-duplicate branch. -/
def c8okState : BState :=
  ⟨["chr"], some "chr", [], some ⟨"g1", ⟨some "chr", 0, 1000, "+"⟩, []⟩, none,
    [], [], []⟩

/-- Witness for `c8_duplicate_mrna_id`, both branches: in `c8dupState` the
synthesized id `g1.mRNA.1` collides and the duplicate exception is raised;
in `c8okState` it is fresh, is registered with counter 0, and processing
continues. -/
theorem c8_duplicate_mrna_id_witness :
    ((processFeature c8dupState (mrnaFeat "g1")).err = some (Err.duplicateMRNA
        ("g1" ++ ".mRNA." ++ toString (lookupD c8dupState.rna_count_by_gene "g1" + 1))))
    ∧ ((processFeature c8okState (mrnaFeat "g1")).err = none
      ∧ memK (processFeature c8okState (mrnaFeat "g1")).state.exon_count_by_RNA
          ("g1" ++ ".mRNA." ++ toString (lookupD c8okState.rna_count_by_gene "g1" + 1)) = true
      ∧ lookupD (processFeature c8okState (mrnaFeat "g1")).state.exon_count_by_RNA
          ("g1" ++ ".mRNA." ++ toString (lookupD c8okState.rna_count_by_gene "g1" + 1)) = 0) :=
  ⟨(c8_duplicate_mrna_id c8dupState (mrnaFeat "g1") ⟨"g1", ⟨some "chr", 0, 1000, "+"⟩, []⟩
      "+" "g1" rfl (by decide) (by decide) rfl).1 (by decide),
   (c8_duplicate_mrna_id c8okState (mrnaFeat "g1") ⟨"g1", ⟨some "chr", 0, 1000, "+"⟩, []⟩
      "+" "g1" rfl (by decide) (by decide) rfl).2 (by decide)⟩

/-- Decomposition of an error-free run over concatenated input: the second
half resumes from the first half's final state (and nothing is emitted in
between). -/
theorem runFrom_append_ok (s : BState) (as bs : List GBRec)
    (h : (runFrom s as).err = none) :
    runFrom s (as ++ bs) =
      ⟨(runFrom (runFrom s as).state bs).state,
        (runFrom s as).lines ++ (runFrom (runFrom s as).state bs).lines,
        (runFrom s as).warns ++ (runFrom (runFrom s as).state bs).warns,
        (runFrom (runFrom s as).state bs).err⟩ := by
  induction as generalizing s with
  | nil =>
    simp [runFrom]
  | cons a as ih =>
    simp only [List.cons_append, runFrom] at h ⊢
    cases hm : (processMolecule s a).err with
    | some e => simp [hm] at h
    | none =>
      simp only [hm, List.append_eq] at h ⊢
      rw [ih _ h]
      simp [List.append_assoc]

/-- C2 (amended): flushing is not driven by molecule-identifier changes, but
it is also not restricted to gene-typed records and end of all input: the
lines 113–115 flush runs at the end of **every** molecule record's feature
list and does not clear `current_gene`.  Appending two further molecule
records with no features at all (and arbitrary molecule identifiers — in
particular regardless of whether the identifier changes) to any error-free
run with a still-open gene re-emits that gene's subgraph at the end of each
of them, although neither contains a gene-typed record and the first is not
the end of the input. -/
theorem c2_flush_at_each_molecule_end (recs : List GBRec) (m1 m2 : String) (g : GeneObj)
    (h1 : (run recs).err = none) (h2 : (run recs).state.current_gene = some g) :
    ((run (recs ++ [⟨m1, []⟩, ⟨m2, []⟩])).lines
        = (run recs).lines ++ printGene (run recs).state.heap g
            ++ printGene (run recs).state.heap g)
    ∧ (run (recs ++ [⟨m1, []⟩, ⟨m2, []⟩])).err = none := by
  unfold run at h1 h2 ⊢
  rw [runFrom_append_ok _ _ _ h1]
  refine ⟨?_, ?_⟩ <;>
    simp [runFrom, processMolecule, processFeatures, flushLines, h2, List.append_assoc]

/-- The one-molecule input of the C2 witness: its run ends with gene `g1`
still open (already flushed once, at the end of `chrA`). -/
def c2recs : List GBRec := [⟨"chrA", [geneFeat "g1"]⟩]

/-- Witness for `c2_flush_at_each_molecule_end`: appending the featureless
molecules `chrB` and `chrC` emits `g1`'s line two more times. -/
theorem c2_flush_at_each_molecule_end_witness :
    ((run (c2recs ++ [⟨"chrB", []⟩, ⟨"chrC", []⟩])).lines
        = (run c2recs).lines
            ++ printGene (run c2recs).state.heap ⟨"g1", ⟨some "chrA", 0, 1000, "+"⟩, []⟩
            ++ printGene (run c2recs).state.heap ⟨"g1", ⟨some "chrA", 0, 1000, "+"⟩, []⟩)
    ∧ (run (c2recs ++ [⟨"chrB", []⟩, ⟨"chrC", []⟩])).err = none :=
  c2_flush_at_each_molecule_end c2recs "chrB" "chrC" ⟨"g1", ⟨some "chrA", 0, 1000, "+"⟩, []⟩
    (by decide) (by decide)

/-! ## C6 -/

/-- The numbering invariant tying `rna_count_by_gene` to the ghost log: for
every locus tag, the counter equals the number of mRNA records seen with
that tag, and the identifiers they were given are `.mRNA.1 … .mRNA.N` in
encounter order. -/
def LogInv (cnt : List (String × Nat)) (log : List (String × String)) : Prop :=
  ∀ L : String,
    lookupD cnt L = (log.filter (fun p => p.1 == L)).length ∧
    (log.filter (fun p => p.1 == L)).map Prod.snd =
      (List.range (log.filter (fun p => p.1 == L)).length).map
        (fun k => L ++ ".mRNA." ++ toString (k + 1))

/-- `LogInv` is preserved by the mRNA-branch update (lines 82–83): increment
the counter for `L` and hand out `L.mRNA.(new count)`. -/
theorem logInv_push (cnt : List (String × Nat)) (log : List (String × String))
    (L : String) (h : LogInv cnt log) :
    LogInv (setK cnt L (lookupD cnt L + 1))
      (log ++ [(L, L ++ ".mRNA." ++ toString (lookupD cnt L + 1))]) := by
  intro L'
  obtain ⟨h1, h2⟩ := h L'
  by_cases hL : L' = L
  · subst hL
    rw [lookupD_setK_self]
    have hx : ((log ++ [(L', L' ++ ".mRNA." ++ toString (lookupD cnt L' + 1))]).filter
          (fun p => p.1 == L'))
        = log.filter (fun p => p.1 == L')
            ++ [(L', L' ++ ".mRNA." ++ toString (lookupD cnt L' + 1))] := by
      simp [List.filter_append]
    rw [hx]
    refine ⟨by simp [h1], ?_⟩
    rw [List.map_append, h2]
    simp [List.range_succ, h1]
  · have hf : ((L, L ++ ".mRNA." ++ toString (lookupD cnt L + 1)).1 == L') = false :=
      beq_eq_false_iff_ne.mpr (Ne.symm hL)
    rw [lookupD_setK_ne _ _ _ _ hL]
    have hx : ((log ++ [(L, L ++ ".mRNA." ++ toString (lookupD cnt L + 1))]).filter
          (fun p => p.1 == L'))
        = log.filter (fun p => p.1 == L') := by
      simp [List.filter_append, hf]
    rw [hx]
    exact ⟨h1, h2⟩

/-- Every single feature step preserves `LogInv`: only the mRNA branch
touches the counter and the log, and it performs exactly the `logInv_push`
update (even when it later aborts on the unbound gene or a duplicate id). -/
theorem logInv_processFeature (s : BState) (f : Feat)
    (h : LogInv s.rna_count_by_gene s.rna_log) :
    LogInv (processFeature s f).state.rna_count_by_gene
      (processFeature s f).state.rna_log := by
  unfold processFeature
  split
  · exact h
  · split
    · -- gene branch
      split
      · exact h
      · exact h
    · split
      · -- mRNA branch
        split
        · exact h
        · dsimp only
          split
          · exact logInv_push _ _ _ h
          · split
            · exact logInv_push _ _ _ h
            · exact logInv_push _ _ _ h
      · split
        · -- CDS branch
          split
          · exact h
          · split
            · exact h
            · dsimp only
              split
              · exact h
              · exact h
        · exact h

/-- `LogInv` is preserved by the feature loop. -/
theorem logInv_processFeatures (s : BState) (fs : List Feat)
    (h : LogInv s.rna_count_by_gene s.rna_log) :
    LogInv (processFeatures s fs).state.rna_count_by_gene
      (processFeatures s fs).state.rna_log := by
  induction fs generalizing s with
  | nil => exact h
  | cons f fs ih =>
    simp only [processFeatures]
    cases he : (processFeature s f).err with
    | some e => simpa [he] using logInv_processFeature s f h
    | none => simpa [he] using ih _ (logInv_processFeature s f h)

/-- `LogInv` is preserved by processing a molecule record. -/
theorem logInv_processMolecule (s : BState) (r : GBRec)
    (h : LogInv s.rna_count_by_gene s.rna_log) :
    LogInv (processMolecule s r).state.rna_count_by_gene
      (processMolecule s r).state.rna_log := by
  unfold processMolecule
  dsimp only
  split
  · exact logInv_processFeatures
      { s with assemblies := if s.assemblies.contains r.name then s.assemblies
                             else s.assemblies ++ [r.name],
               current_assembly := some r.name } r.features h
  · exact logInv_processFeatures
      { s with assemblies := if s.assemblies.contains r.name then s.assemblies
                             else s.assemblies ++ [r.name],
               current_assembly := some r.name } r.features h

/-- `LogInv` is preserved by the whole run. -/
theorem logInv_runFrom (s : BState) (recs : List GBRec)
    (h : LogInv s.rna_count_by_gene s.rna_log) :
    LogInv (runFrom s recs).state.rna_count_by_gene
      (runFrom s recs).state.rna_log := by
  induction recs generalizing s with
  | nil => exact h
  | cons r rs ih =>
    simp only [runFrom]
    cases he : (processMolecule s r).err with
    | some e => simpa [he] using logInv_processMolecule s r h
    | none => simpa [he] using ih _ (logInv_processMolecule s r h)

/-- C6 (confirmed): per-locus-tag mRNA numbering (lines 81–83).  For every
input and every locus tag `L`, the mRNA records of the run carrying `L` (in
encounter order, across all genes and molecules — the ghost log `rna_log`
records exactly the (locus tag, synthesized id) pair of each mRNA record as
it reaches line 83) receive the synthesized identifiers
`L.mRNA.1 … L.mRNA.N`, where `N` is the number of such records: the counter
`rna_count_by_gene` is global to the run and never reset. -/
theorem c6_mrna_numbering (recs : List GBRec) (L : String) :
    ((run recs).state.rna_log.filter (fun p => p.1 == L)).map Prod.snd =
      (List.range ((run recs).state.rna_log.filter (fun p => p.1 == L)).length).map
        (fun k => L ++ ".mRNA." ++ toString (k + 1)) := by
  have hinit : LogInv initState.rna_count_by_gene initState.rna_log := by
    intro L'
    simp [initState, lookupD, List.filter]
  exact ((logInv_runFrom initState recs hinit) L).2

/-! ## C7 -/

/-- Setting an index to the value it already holds leaves the list unchanged. -/
theorem set_of_getElem?_eq {α : Type} (l : List α) (i : Nat) (a : α)
    (h : l[i]? = some a) : l.set i a = l := by
  induction l generalizing i with
  | nil => simp at h
  | cons x xs ih =>
    cases i with
    | zero => simp at h; simp [h]
    | succ i => simp at h; simp [ih i h]

/-- The reachability invariant of the mRNA heap (over the fields it
involves): the open transcript index is valid; heap ids are pairwise
distinct; every heap transcript is registered in `exon_count_by_RNA`, its
counter equals its number of coding segments, its exon and CDS lists are
equally long, and the k-th CDS / exon carry the ids
`{id}.CDS.{k}` / `{id}.exon.{k}`. -/
def ReachInv (heap : List MRNAObj) (rna : Option Nat) (ec : List (String × Nat)) : Prop :=
  (∀ i : Nat, rna = some i → i < heap.length) ∧
  (heap.map MRNAObj.id).Nodup ∧
  (∀ (j : Nat) (m : MRNAObj), heap[j]? = some m →
    memK ec m.id = true ∧
    lookupD ec m.id = m.CDSs.length ∧
    m.exons.length = m.CDSs.length ∧
    m.CDSs.map CDSRec.id
      = (List.range m.CDSs.length).map (fun k => m.id ++ ".CDS." ++ toString (k + 1)) ∧
    m.exons.map ExonRec.id
      = (List.range m.CDSs.length).map (fun k => m.id ++ ".exon." ++ toString (k + 1))) 

/-- The successful mRNA step (lines 85–93) preserves the heap invariant: a
fresh transcript object with no children is appended, opened, and registered
with counter 0 — its id passed the duplicate check. -/
theorem reachInv_push_mrna (heap : List MRNAObj) (rna : Option Nat)
    (ec : List (String × Nat)) (fid : String) (obj : MRNAObj)
    (hinv : ReachInv heap rna ec)
    (hid : obj.id = fid) (hcds : obj.CDSs = []) (hex : obj.exons = [])
    (hmem : memK ec fid = false) :
    ReachInv (heap ++ [obj]) (some heap.length) (setK ec fid 0) := by
  obtain ⟨-, hnodup, hall⟩ := hinv
  have hnotmem : fid ∉ heap.map MRNAObj.id := by
    intro hmemid
    obtain ⟨x, hx, hxid⟩ := List.mem_map.mp hmemid
    obtain ⟨j, hj⟩ := List.mem_iff_getElem?.mp hx
    have hk := (hall j x hj).1
    rw [hxid, hmem] at hk
    exact Bool.false_ne_true hk
  refine ⟨?_, ?_, ?_⟩
  · intro i hi
    cases hi
    simp
  · simp only [List.map_append, List.map_cons, List.map_nil]
    rw [hid]
    exact List.Nodup.append hnodup (List.nodup_singleton _)
      (List.disjoint_singleton.mpr hnotmem)
  · intro j m hj
    rw [List.getElem?_append] at hj
    by_cases hlt : j < heap.length
    · rw [if_pos hlt] at hj
      have hold := hall j m hj
      have hmemheap : m.id ∈ heap.map MRNAObj.id := by
        exact List.mem_map.mpr ⟨m, List.mem_iff_getElem?.mpr ⟨j, hj⟩, rfl⟩
      have hne : m.id ≠ fid := fun hc => hnotmem (hc ▸ hmemheap)
      refine ⟨?_, ?_, hold.2.2.1, hold.2.2.2.1, hold.2.2.2.2⟩
      · rw [memK_setK, hold.1]
        simp
      · rw [lookupD_setK_ne _ _ _ _ hne, hold.2.1]
    · rw [if_neg hlt] at hj
      cases hd : j - heap.length with
      | zero =>
        rw [hd] at hj
        simp only [List.getElem?_cons_zero, Option.some.injEq] at hj
        subst hj
        refine ⟨?_, ?_, ?_, ?_, ?_⟩
        · rw [memK_setK, hid]
          simp
        · simp [hid, lookupD_setK_self, hcds]
        · simp [hcds, hex]
        · simp [hcds]
        · simp [hcds, hex]
      | succ n =>
        rw [hd] at hj
        simp at hj

/-- The successful CDS step (lines 97–106) preserves the heap invariant: the
open transcript's counter is bumped and a CDS / exon pair carrying the new
index is appended to it. -/
theorem reachInv_push_cds (heap : List MRNAObj) (ec : List (String × Nat))
    (i : Nat) (m : MRNAObj) (pl pl2 : Placement)
    (hinv : ReachInv heap (some i) ec)
    (hm : heap[i]? = some m) :
    ReachInv
      (heap.set i { m with
        CDSs := m.CDSs ++ [⟨m.id ++ ".CDS." ++ toString (lookupD ec m.id + 1), m.id, pl, 0⟩],
        exons := m.exons ++ [⟨m.id ++ ".exon." ++ toString (lookupD ec m.id + 1), m.id, pl2⟩] })
      (some i) (setK ec m.id (lookupD ec m.id + 1)) := by
  obtain ⟨hlt, hnodup, hall⟩ := hinv
  have hilt : i < heap.length := hlt i rfl
  have hcnt := hall i m hm
  refine ⟨?_, ?_, ?_⟩
  · intro j hj
    cases hj
    simpa using hilt
  · rw [List.map_set]
    have hset : (heap.map MRNAObj.id).set i m.id = heap.map MRNAObj.id := by
      apply set_of_getElem?_eq
      rw [List.getElem?_map, hm]
      rfl
    show ((heap.map MRNAObj.id).set i m.id).Nodup
    rw [hset]
    exact hnodup
  · intro j m2 hj
    by_cases hji : j = i
    · subst hji
      rw [List.getElem?_set_self (by simpa using hilt)] at hj
      injection hj with hj
      subst hj
      refine ⟨?_, ?_, ?_, ?_, ?_⟩
      · rw [memK_setK]
        simp
      · rw [lookupD_setK_self]
        simp [hcnt.2.1]
      · simp [hcnt.2.2.1]
      · simp only [List.map_append, List.length_append, List.map_cons, List.map_nil,
          List.length_cons, List.length_nil]
        rw [hcnt.2.2.2.1, hcnt.2.1]
        rw [List.range_succ, List.map_append]
        rfl
      · simp only [List.map_append, List.length_append, List.map_cons, List.map_nil,
          List.length_cons, List.length_nil]
        rw [hcnt.2.2.2.2, hcnt.2.1]
        rw [List.range_succ, List.map_append]
        rfl
    · rw [List.getElem?_set_ne (fun hc => hji hc.symm)] at hj
      have hold := hall j m2 hj
      have hne : m2.id ≠ m.id := by
        intro hc
        apply hji
        have h1 : (heap.map MRNAObj.id)[i]? = some m.id := by
          rw [List.getElem?_map, hm]; rfl
        have h2 : (heap.map MRNAObj.id)[j]? = some m2.id := by
          rw [List.getElem?_map, hj]; rfl
        have hjlt : j < (heap.map MRNAObj.id).length := by
          have := List.getElem?_eq_some_iff.mp hj
          simpa using this.1
        exact List.getElem?_inj hjlt hnodup (by rw [h2, h1, hc])
      refine ⟨?_, ?_, hold.2.2.1, hold.2.2.2.1, hold.2.2.2.2⟩
      · rw [memK_setK, hold.1]
        simp
      · rw [lookupD_setK_ne _ _ _ _ hne, hold.2.1]

/-- Every error-free feature step preserves the heap invariant. -/
theorem reachInv_processFeature (s : BState) (f : Feat)
    (hinv : ReachInv s.heap s.current_RNA s.exon_count_by_RNA)
    (he : (processFeature s f).err = none) :
    ReachInv (processFeature s f).state.heap (processFeature s f).state.current_RNA
      (processFeature s f).state.exon_count_by_RNA := by
  unfold processFeature at he ⊢
  cases hd : decodeStrand f.strand with
  | error e => simp [hd] at he
  | ok str =>
    simp only [hd] at he ⊢
    by_cases h1 : f.ftype = "gene"
    · rw [if_pos h1] at he ⊢
      cases hq : qual0 f.qualifiers "locus_tag" with
      | error e => simp [hq] at he
      | ok L =>
        simp only [hq] at he ⊢
        exact hinv
    · rw [if_neg h1] at he ⊢
      by_cases h2 : f.ftype = "mRNA"
      · rw [if_pos h2] at he ⊢
        cases hq : qual0 f.qualifiers "locus_tag" with
        | error e => simp [hq] at he
        | ok L =>
          simp only [hq] at he ⊢

          cases hg : s.current_gene with
          | none => simp [hg] at he
          | some g =>
            simp only [hg] at he ⊢
            by_cases hmem : memK s.exon_count_by_RNA
                (L ++ ".mRNA." ++ toString (lookupD s.rna_count_by_gene L + 1)) = true
            · rw [if_pos hmem] at he
              simp at he
            · rw [if_neg hmem] at he ⊢
              have hmem' : memK s.exon_count_by_RNA
                  (L ++ ".mRNA." ++ toString (lookupD s.rna_count_by_gene L + 1)) = false := by
                simpa using hmem
              exact reachInv_push_mrna s.heap s.current_RNA s.exon_count_by_RNA _ _
                hinv rfl rfl rfl hmem'
      · rw [if_neg h2] at he ⊢
        by_cases h3 : f.ftype = "CDS"
        · rw [if_pos h3] at he ⊢
          cases hq : qual0 f.qualifiers "locus_tag" with
          | error e => simp [hq] at he
          | ok L =>
            simp only [hq] at he ⊢
            cases hr : s.current_RNA with
            | none => simp [hr] at he
            | some i =>
              simp only [hr] at he ⊢

              cases hp : qual0 f.qualifiers "product" with
              | error e => simp [hp] at he
              | ok v =>
                simp only [hp] at he ⊢
                have hilt : i < s.heap.length := hinv.1 i hr
                have hm : s.heap[i]? = some (s.heap.getD i default) := by
                  rw [List.getD_eq_getElem?_getD, List.getElem?_eq_getElem hilt]
                  rfl
                exact reachInv_push_cds s.heap s.exon_count_by_RNA i _ _ _
                  (hr ▸ hinv) hm
        · rw [if_neg h3] at he ⊢
          exact hinv

/-- The heap invariant is preserved by an error-free feature loop. -/
theorem reachInv_processFeatures (s : BState) (fs : List Feat)
    (hinv : ReachInv s.heap s.current_RNA s.exon_count_by_RNA)
    (he : (processFeatures s fs).err = none) :
    ReachInv (processFeatures s fs).state.heap (processFeatures s fs).state.current_RNA
      (processFeatures s fs).state.exon_count_by_RNA := by
  induction fs generalizing s with
  | nil => exact hinv
  | cons f fs ih =>
    simp only [processFeatures] at he ⊢
    cases h : (processFeature s f).err with
    | some e => simp [h] at he
    | none =>
      simp only [h] at he ⊢
      exact ih _ (reachInv_processFeature s f hinv h) he

/-- The heap invariant is preserved by an error-free molecule record. -/
theorem reachInv_processMolecule (s : BState) (r : GBRec)
    (hinv : ReachInv s.heap s.current_RNA s.exon_count_by_RNA)
    (he : (processMolecule s r).err = none) :
    ReachInv (processMolecule s r).state.heap (processMolecule s r).state.current_RNA
      (processMolecule s r).state.exon_count_by_RNA := by
  revert he
  unfold processMolecule
  dsimp only
  split
  · intro he
    exact reachInv_processFeatures _ r.features hinv he
  · intro he
    exact reachInv_processFeatures _ r.features hinv he

/-- The heap invariant is preserved by an error-free run. -/
theorem reachInv_runFrom (s : BState) (recs : List GBRec)
    (hinv : ReachInv s.heap s.current_RNA s.exon_count_by_RNA)
    (he : (runFrom s recs).err = none) :
    ReachInv (runFrom s recs).state.heap (runFrom s recs).state.current_RNA
      (runFrom s recs).state.exon_count_by_RNA := by
  induction recs generalizing s with
  | nil => exact hinv
  | cons r rs ih =>
    simp only [runFrom] at he ⊢
    cases h : (processMolecule s r).err with
    | some e => simp [h] at he
    | none =>
      simp only [h] at he ⊢
      exact ih _ (reachInv_processMolecule s r hinv h) he

/-- C7 (confirmed): paired child indices (lines 97–106).  In any error-free
run, every transcript object has equally many coding segments and exons, and
for every `k` the k-th CDS record processed under it produced the paired
identifiers `{transcript}.CDS.{k}` and `{transcript}.exon.{k}`: one shared
counter (`exon_count_by_RNA`, reset to 0 when the transcript is created and
incremented once per CDS record) drives both identifiers. -/
theorem c7_paired_child_indices (recs : List GBRec) (j : Nat) (m : MRNAObj)
    (he : (run recs).err = none) (hm : (run recs).state.heap[j]? = some m) :
    m.exons.length = m.CDSs.length
    ∧ m.CDSs.map CDSRec.id
        = (List.range m.CDSs.length).map (fun k => m.id ++ ".CDS." ++ toString (k + 1))
    ∧ m.exons.map ExonRec.id
        = (List.range m.CDSs.length).map (fun k => m.id ++ ".exon." ++ toString (k + 1)) := by
  have hinit : ReachInv initState.heap initState.current_RNA initState.exon_count_by_RNA := by
    refine ⟨?_, ?_, ?_⟩ <;> simp [initState]
  have hrun := reachInv_runFrom initState recs hinit he
  have h := hrun.2.2 j m hm
  exact ⟨h.2.2.1, h.2.2.2.1, h.2.2.2.2⟩

/-- Witness for `c7_paired_child_indices`: the transcript built by the spec
§8 E2E scenario. -/
theorem c7_paired_child_indices_witness :
    ((run e2eInput).err = none)
    ∧ ((⟨"g1.mRNA.1", some "g1", ⟨some "chr1", 0, 1000, "+"⟩,
        [⟨"g1.mRNA.1.CDS.1", "g1.mRNA.1", ⟨some "chr1", 0, 500, "+"⟩, 0⟩,
         ⟨"g1.mRNA.1.CDS.2", "g1.mRNA.1", ⟨some "chr1", 600, 1000, "+"⟩, 0⟩],
        [⟨"g1.mRNA.1.exon.1", "g1.mRNA.1", ⟨some "chr1", 0, 500, "+"⟩⟩,
         ⟨"g1.mRNA.1.exon.2", "g1.mRNA.1", ⟨some "chr1", 600, 1000, "+"⟩⟩]⟩ : MRNAObj).exons.length
          = (⟨"g1.mRNA.1", some "g1", ⟨some "chr1", 0, 1000, "+"⟩,
        [⟨"g1.mRNA.1.CDS.1", "g1.mRNA.1", ⟨some "chr1", 0, 500, "+"⟩, 0⟩,
         ⟨"g1.mRNA.1.CDS.2", "g1.mRNA.1", ⟨some "chr1", 600, 1000, "+"⟩, 0⟩],
        [⟨"g1.mRNA.1.exon.1", "g1.mRNA.1", ⟨some "chr1", 0, 500, "+"⟩⟩,
         ⟨"g1.mRNA.1.exon.2", "g1.mRNA.1", ⟨some "chr1", 600, 1000, "+"⟩⟩]⟩ : MRNAObj).CDSs.length) :=
  ⟨by decide,
   (c7_paired_child_indices e2eInput 0
      ⟨"g1.mRNA.1", some "g1", ⟨some "chr1", 0, 1000, "+"⟩,
        [⟨"g1.mRNA.1.CDS.1", "g1.mRNA.1", ⟨some "chr1", 0, 500, "+"⟩, 0⟩,
         ⟨"g1.mRNA.1.CDS.2", "g1.mRNA.1", ⟨some "chr1", 600, 1000, "+"⟩, 0⟩],
        [⟨"g1.mRNA.1.exon.1", "g1.mRNA.1", ⟨some "chr1", 0, 500, "+"⟩⟩,
         ⟨"g1.mRNA.1.exon.2", "g1.mRNA.1", ⟨some "chr1", 600, 1000, "+"⟩⟩]⟩
      (by decide) (by decide)).1⟩
